import Mathlib

/-!
Verification development for a small Jira MCP HTTP server (`server.py`).

The server exposes three tools (`jira_get_issues`, `jira_add_comment`,
`jira_close_issue`) that translate tool calls into REST calls against a
Jira tracker.  We embed the Python code shallowly:

* JSON / deserialized-Python values are modelled by the inductive type
  `Json` (JSON numbers are modelled as integers; every number appearing
  in this program and its protocol is an integer).
* Python exceptions are modelled by `PyExc`; fallible code returns
  `Except PyExc _`.
* Python truthiness, `dict.get`, subscription, iteration, `str.strip`,
  `str.lower`, `repr`, f-string interpolation and `json.dumps` are
  modelled by explicit functions, each faithful to CPython semantics on
  the values the server manipulates (comments note the abstractions).
* The recursive `get_text` is defined with an explicit fuel parameter so
  that the definition is structural (hence executable by the kernel);
  the wrapper passes `jsize node` fuel, which always suffices — the
  fuel-exhausted branch models Python's `RecursionError` and is
  unreachable from the wrapper.
-/

namespace Jira

/-- A JSON / deserialized-Python value.  Objects are ordered key/value
lists (CPython dicts preserve insertion order; the dicts handled here
have distinct keys). -/
inductive Json where
  | null
  | bool (b : Bool)
  | num (n : Int)
  | str (s : String)
  | arr (xs : List Json)
  | obj (fs : List (String × Json))
deriving Repr

mutual

/-- Size of a `Json` value, used as recursion fuel for `get_text`. -/
def jsize : Json → Nat
  | .null => 1
  | .bool _ => 1
  | .num _ => 1
  | .str _ => 1
  | .arr xs => 1 + jsizeList xs
  | .obj fs => 1 + jsizeFields fs

def jsizeList : List Json → Nat
  | [] => 0
  | x :: r => 1 + jsize x + jsizeList r

def jsizeFields : List (String × Json) → Nat
  | [] => 0
  | (_, v) :: r => 1 + jsize v + jsizeFields r

end

/-- Lookup in an ordered key/value list: Python `d[k]` / `d.get(k)` on a
dict with distinct keys. -/
def dictGet (fs : List (String × Json)) (k : String) : Option Json :=
  match fs with
  | [] => none
  | (k2, v) :: r => if k2 = k then some v else dictGet r k

theorem jsize_pos (j : Json) : 0 < jsize j := by
  cases j <;> simp [jsize]

theorem dictGet_jsize {fs : List (String × Json)} {k : String} {v : Json}
    (h : dictGet fs k = some v) : jsize v < jsize (Json.obj fs) := by
  induction fs with
  | nil => simp [dictGet] at h
  | cons p r ih =>
    obtain ⟨k2, w⟩ := p
    by_cases hk : k2 = k
    · simp [dictGet, hk] at h
      subst h
      simp [jsize, jsizeFields]
      omega
    · simp [dictGet, hk] at h
      have := ih h
      simp [jsize, jsizeFields] at this ⊢
      omega

theorem mem_jsizeList {x : Json} {xs : List Json} (h : x ∈ xs) :
    jsize x ≤ jsizeList xs := by
  induction xs with
  | nil => simp at h
  | cons y r ih =>
    rcases List.mem_cons.mp h with h1 | h1
    · subst h1; simp [jsizeList]; omega
    · have := ih h1
      simp [jsizeList]
      omega

/-- Python truthiness (`bool(x)`) of a deserialized JSON value. -/
def pyTruthy : Json → Bool
  | .null => false
  | .bool b => b
  | .num n => n != 0
  | .str s => s != ""
  | .arr xs => !xs.isEmpty
  | .obj fs => !fs.isEmpty

/-- Python type name of a deserialized JSON value (used in exception
messages). -/
def pyTypeName : Json → String
  | .null => "NoneType"
  | .bool _ => "bool"
  | .num _ => "int"
  | .str _ => "str"
  | .arr _ => "list"
  | .obj _ => "dict"

/-- Characters removed by Python `str.strip()` (ASCII whitespace; the
strings handled here contain no exotic Unicode whitespace). -/
def isPySpace (c : Char) : Bool :=
  c = ' ' || c = '\t' || c = '\n' || c = '\x0d' || c = Char.ofNat 11 || c = Char.ofNat 12

/-- Python `s.strip()`. -/
def pyStrip (s : String) : String :=
  String.mk (((s.toList.dropWhile isPySpace).reverse.dropWhile isPySpace).reverse)

/-- `" ".join(parts)` followed by `.strip()`, as in `get_text`. -/
def joinStrip (parts : List String) : String :=
  pyStrip (String.intercalate " " parts)

/-- A Python exception, as far as the server distinguishes them:
`httpx.HTTPStatusError` (with `e.response.status_code` and
`e.response.text`), `httpx.TimeoutException`, and anything else
(carrying `str(e)`). -/
inductive PyExc where
  | httpStatus (status : Nat) (text : String)
  | timeout
  | other (msg : String)
deriving Repr, DecidableEq

/-- Python `node.get("type") == "text"` for a dict node: true exactly when
the `"type"` key is present and its value is the string `"text"`. -/
def isTextNode (fs : List (String × Json)) : Bool :=
  match dictGet fs "type" with
  | some (.str t) => t == "text"
  | _ => false

/-- The item-by-item evaluation of `" ".join(get_text(c) for c in content)`:
the generator produces `get_text`'s result for each element in order and
`join` checks each result is a `str` as it is produced; the first
exception wins.  (The Python message includes the item index, which is
abstracted.) -/
def joinParts : List (Except PyExc Json) → Except PyExc (List String)
  | [] => .ok []
  | .error e :: _ => .error e
  | .ok (.str s) :: r =>
    match joinParts r with
    | .error e => .error e
    | .ok parts => .ok (s :: parts)
  | .ok v :: _ =>
    .error (.other ("TypeError: sequence item: expected str instance, " ++ pyTypeName v ++ " found"))

/-- `get_text(node)` from `server.py`, fuel-indexed:

    def get_text(node) -> str:
        if not node: return ""
        if isinstance(node, str): return node
        if node.get("type") == "text": return node.get("text", "")
        return " ".join(get_text(c) for c in node.get("content", [])).strip()

A call may raise (modelled as `.error`): `.get` on a truthy non-dict
non-str raises `AttributeError`, a non-iterable `content` raises
`TypeError`, and `" ".join` raises `TypeError` on a non-`str` item
(exception messages are abbreviated).  The returned Python value is a
`str` except when a `"text"`-tagged node carries a non-string `text`
field, which the code returns unchanged; hence the result type `Json`.

Iterating a *string* `content` yields its one-character strings, and
`get_text` on a one-character string returns it unchanged (it is
truthy); iterating a *dict* `content` yields its keys, and `get_text` on
a key string `k` returns `k` (also for `k = ""`, via the falsy branch).
Both cases are written out directly rather than through the recursion. -/
def get_textF : Nat → Json → Except PyExc Json
  | 0, _ => .error (.other "RecursionError: maximum recursion depth exceeded")
  | fuel + 1, node =>
    if !pyTruthy node then .ok (.str "")
    else match node with
    | .str s => .ok (.str s)
    | .obj fs =>
      if isTextNode fs then .ok ((dictGet fs "text").getD (.str ""))
      else
        match dictGet fs "content" with
        | none => .ok (.str (joinStrip []))
        | some (.arr xs) =>
          match joinParts (xs.map (get_textF fuel)) with
          | .error e => .error e
          | .ok parts => .ok (.str (joinStrip parts))
        | some (.str s) => .ok (.str (joinStrip (s.toList.map Char.toString)))
        | some (.obj fs2) => .ok (.str (joinStrip (fs2.map Prod.fst)))
        | some v => .error (.other ("TypeError: " ++ pyTypeName v ++ " object is not iterable"))
    | _ => .error (.other ("AttributeError: " ++ pyTypeName node ++ " object has no attribute get"))

/-- `get_text(node)`: fuel `jsize node` always suffices (see
`get_textF_extract_specF`, and the concrete evaluations below). -/
def get_text (node : Json) : Except PyExc Json :=
  get_textF (jsize node) node

/-- The spec's reference case-definition of `extract` (§4.1), written from
its words: absent/null yields the empty string; a plain string value is
returned unchanged; a node tagged `"text"` yields its literal text field
(a string, in a rich-text tree), or the empty string if the field is
missing; any other node yields the extraction of each entry of its
ordered child sequence (empty sequence if the field is absent), joined
with a single space and trimmed of leading/trailing whitespace.
Fuel-indexed like `get_textF`. -/
def extract_specF : Nat → Json → String
  | 0, _ => ""
  | fuel + 1, node =>
    match node with
    | .null => ""
    | .str s => s
    | .obj fs =>
      if isTextNode fs then
        match dictGet fs "text" with
        | some (.str s) => s
        | _ => ""
      else
        match dictGet fs "content" with
        | some (.arr xs) => joinStrip (xs.map (extract_specF fuel))
        | _ => joinStrip []
    | _ => joinStrip []

/-- The spec's `extract`. -/
def extract_spec (node : Json) : String :=
  extract_specF (jsize node) node

/-- A well-formed rich-text tree: absent/null, a plain string, or a node
whose `text` field (when present) is a string and whose `content` field
(when present) is a sequence of well-formed rich-text trees.
Fuel-indexed like `get_textF`. -/
def WFbF : Nat → Json → Bool
  | 0, _ => false
  | fuel + 1, node =>
    match node with
    | .null => true
    | .str _ => true
    | .obj fs =>
      (match dictGet fs "text" with
       | none => true
       | some (.str _) => true
       | some _ => false)
      &&
      (match dictGet fs "content" with
       | none => true
       | some (.arr xs) => xs.all (WFbF fuel)
       | some _ => false)
    | _ => false

/-- Well-formedness of a rich-text tree. -/
def WFb (node : Json) : Bool :=
  WFbF (jsize node) node

theorem joinParts_map {xs : List Json} {f h : Nat}
    (helem : ∀ x ∈ xs, get_textF f x = .ok (.str (extract_specF h x))) :
    joinParts (xs.map (get_textF f)) = .ok (xs.map (extract_specF h)) := by
  induction xs with
  | nil => simp [joinParts]
  | cons x r ih =>
    have hx := helem x (List.mem_cons_self x r)
    have hr := ih (fun y hy => helem y (List.mem_cons_of_mem x hy))
    simp [joinParts, hx, hr]

/-- Key agreement lemma: with any sufficient fuels, on a well-formed
rich-text tree `get_textF` never raises and returns exactly the string
described by the spec's case-definition. -/
theorem get_textF_extract_specF :
    ∀ F f g h j, jsize j ≤ f → jsize j ≤ g → jsize j ≤ h → f ≤ F →
      WFbF g j = true → get_textF f j = .ok (.str (extract_specF h j)) := by
  intro F
  induction F with
  | zero =>
    intro f g h j hf _ _ hF _
    have := jsize_pos j
    omega
  | succ F ih =>
    intro f g h j hf hg hh hF hw
    have hj1 := jsize_pos j
    obtain ⟨f', rfl⟩ : ∃ f', f = f' + 1 := ⟨f - 1, by omega⟩
    obtain ⟨g', rfl⟩ : ∃ g', g = g' + 1 := ⟨g - 1, by omega⟩
    obtain ⟨h', rfl⟩ : ∃ h', h = h' + 1 := ⟨h - 1, by omega⟩
    cases j with
    | null => simp [get_textF, extract_specF, pyTruthy]
    | bool b => simp [WFbF] at hw
    | num k => simp [WFbF] at hw
    | arr xs => simp [WFbF] at hw
    | str s =>
      by_cases hs : s = ""
      · subst hs; simp [get_textF, extract_specF, pyTruthy]
      · simp [get_textF, extract_specF, pyTruthy, hs]
    | obj fs =>
      simp only [WFbF, Bool.and_eq_true] at hw
      obtain ⟨hwt, hwc⟩ := hw
      cases fs with
      | nil =>
        simp [get_textF, extract_specF, pyTruthy, isTextNode, dictGet, joinStrip,
              String.intercalate, pyStrip]
      | cons p r =>
        have htruthy : pyTruthy (.obj (p :: r)) = true := by simp [pyTruthy]
        by_cases ht : isTextNode (p :: r)
        · -- "text"-tagged node: both sides read the "text" field
          simp only [get_textF, extract_specF, htruthy, ht, Bool.not_true, if_true, if_false,
                     Bool.false_eq_true, ite_false, ite_true]
          cases htext : dictGet (p :: r) "text" with
          | none => simp [htext] at hwt ⊢
          | some v =>
            cases v <;> simp [htext] at hwt ⊢
        · -- container node: both sides walk the "content" sequence
          simp only [get_textF, extract_specF, htruthy, ht, Bool.not_true, if_true, if_false,
                     Bool.false_eq_true, ite_false, ite_true]
          cases htc : dictGet (p :: r) "content" with
          | none => simp [htc]
          | some v =>
            cases v with
            | arr xs =>
              have hsub : jsize (Json.arr xs) < jsize (Json.obj (p :: r)) := dictGet_jsize htc
              have helem : ∀ x ∈ xs, get_textF f' x = .ok (.str (extract_specF h' x)) := by
                intro x hx
                have hxsz := mem_jsizeList hx
                have hxa : jsize x ≤ f' := by
                  simp [jsize] at hsub hf
                  omega
                have hxg : jsize x ≤ g' := by
                  simp [jsize] at hsub hg
                  omega
                have hxh : jsize x ≤ h' := by
                  simp [jsize] at hsub hh
                  omega
                have hwx : WFbF g' x = true := by
                  rw [htc] at hwc
                  simp only [List.all_eq_true] at hwc
                  exact hwc x hx
                exact ih f' g' h' x hxa hxg hxh (by omega) hwx
              simp [htc, joinParts_map helem]
            | null => rw [htc] at hwc; simp at hwc
            | bool b => rw [htc] at hwc; simp at hwc
            | num k => rw [htc] at hwc; simp at hwc
            | str s => rw [htc] at hwc; simp at hwc
            | obj fs2 => rw [htc] at hwc; simp at hwc

/-- On well-formed rich-text trees, `get_text` agrees with the spec's
`extract` (and in particular never raises). -/
theorem get_text_extract_spec {j : Json} (h : WFb j = true) :
    get_text j = .ok (.str (extract_spec j)) :=
  get_textF_extract_specF (jsize j) (jsize j) (jsize j) (jsize j) j
    le_rfl le_rfl le_rfl le_rfl h

example : get_text .null = .ok (.str "") := rfl

example : get_text (.obj [("type", .str "text"), ("text", .str "hi")]) = .ok (.str "hi") := rfl

example :
    get_text (.obj [("type", .str "doc"),
      ("content", .arr [.obj [("type", .str "paragraph"),
        ("content", .arr [.obj [("type", .str "text"), ("text", .str "a")],
                          .obj [("type", .str "text"), ("text", .str "b")]])]])])
      = .ok (.str "a b") := rfl

/-- Python `s.lower()`.  Lean's `String.toLower` lowers exactly the ASCII
uppercase letters; CPython's `str.lower` additionally lowers non-ASCII
uppercase letters, but no non-ASCII character lowercases to any letter
of "done", "closed" or "resolved", so the two agree on the membership
test below. -/
def pyLower (s : String) : String :=
  String.mk (s.toList.map Char.toLower)

/-- The fixed closing-intent word list of `jira_close_issue`. -/
def closingNames : List String :=
  ["done", "closed", "resolved"]

/-- `t["name"].lower() in ["done", "closed", "resolved"]` applied to an
already-extracted name string. -/
def isClosingName (s : String) : Bool :=
  closingNames.contains (pyLower s)

/-- Lowercase hexadecimal digit. -/
def hexDigit (n : Nat) : Char :=
  if n < 10 then Char.ofNat (48 + n) else Char.ofNat (87 + n)

/-- Two lowercase hex digits. -/
def hex2 (n : Nat) : String :=
  String.mk [hexDigit (n / 16 % 16), hexDigit (n % 16)]

/-- Four lowercase hex digits. -/
def hex4 (n : Nat) : String :=
  String.mk [hexDigit (n / 4096 % 16), hexDigit (n / 256 % 16), hexDigit (n / 16 % 16),
             hexDigit (n % 16)]

/-- One character of a JSON string as emitted by CPython `json.dumps`
with its defaults (`ensure_ascii=True`): `"`, `\` and control characters
are escaped, anything outside printable ASCII is `\uXXXX`-escaped (as a
surrogate pair beyond the BMP). -/
def jsonEscapeChar (c : Char) : String :=
  if c = '"' then "\\\""
  else if c = '\\' then "\\\\"
  else if c = '\n' then "\\n"
  else if c = '\t' then "\\t"
  else if c = '\x0d' then "\\r"
  else if c = '\x08' then "\\b"
  else if c = Char.ofNat 12 then "\\f"
  else if c.toNat < 32 then "\\u" ++ hex4 c.toNat
  else if c.toNat ≤ 126 then c.toString
  else if c.toNat < 65536 then "\\u" ++ hex4 c.toNat
  else
    "\\u" ++ hex4 (55296 + (c.toNat - 65536) / 1024) ++ "\\u" ++ hex4 (56320 + (c.toNat - 65536) % 1024)

/-- A JSON string literal as emitted by `json.dumps`. -/
def json_dumps_str (s : String) : String :=
  "\"" ++ String.join (s.toList.map jsonEscapeChar) ++ "\""

mutual

/-- CPython `json.dumps(v)` with default arguments: separators
`", "` and `": "`, `ensure_ascii=True`, insertion-ordered dict keys. -/
def json_dumps : Json → String
  | .null => "null"
  | .bool b => if b then "true" else "false"
  | .num n => toString n
  | .str s => json_dumps_str s
  | .arr xs => "[" ++ json_dumps_arr xs ++ "]"
  | .obj fs => "\x7b" ++ json_dumps_obj fs ++ "\x7d"

def json_dumps_arr : List Json → String
  | [] => ""
  | [x] => json_dumps x
  | x :: r => json_dumps x ++ ", " ++ json_dumps_arr r

def json_dumps_obj : List (String × Json) → String
  | [] => ""
  | [(k, v)] => json_dumps_str k ++ ": " ++ json_dumps v
  | (k, v) :: r => json_dumps_str k ++ ": " ++ json_dumps v ++ ", " ++ json_dumps_obj r

end

/-- Indentation prefix used by `json.dumps(v, indent=2)` at nesting
level `lvl`. -/
def indentStr (lvl : Nat) : String :=
  String.mk (List.replicate (2 * lvl) ' ')

mutual

/-- CPython `json.dumps(v, indent=2)` at nesting level `lvl`: containers
break across lines, items separated by `",\n"` plus indentation, key
separator `": "`, empty containers stay on one line. -/
def json_dumps2 : Nat → Json → String
  | _, .null => "null"
  | _, .bool b => if b then "true" else "false"
  | _, .num n => toString n
  | _, .str s => json_dumps_str s
  | _, .arr [] => "[]"
  | lvl, .arr xs => "[\n" ++ json_dumps2_arr (lvl + 1) xs ++ "\n" ++ indentStr lvl ++ "]"
  | _, .obj [] => "\x7b\x7d"
  | lvl, .obj fs => "\x7b\n" ++ json_dumps2_obj (lvl + 1) fs ++ "\n" ++ indentStr lvl ++ "\x7d"

def json_dumps2_arr : Nat → List Json → String
  | _, [] => ""
  | lvl, [x] => indentStr lvl ++ json_dumps2 lvl x
  | lvl, x :: r => indentStr lvl ++ json_dumps2 lvl x ++ ",\n" ++ json_dumps2_arr lvl r

def json_dumps2_obj : Nat → List (String × Json) → String
  | _, [] => ""
  | lvl, [(k, v)] => indentStr lvl ++ json_dumps_str k ++ ": " ++ json_dumps2 lvl v
  | lvl, (k, v) :: r =>
    indentStr lvl ++ json_dumps_str k ++ ": " ++ json_dumps2 lvl v ++ ",\n" ++ json_dumps2_obj lvl r

end

/-- `json.dumps(v, indent=2)` as called by `jira_get_issues`. -/
def json_dumps_indent2 (j : Json) : String :=
  json_dumps2 0 j

/-- One character of CPython `repr` of a string, with quote character
`q`: escapes the backslash, the quote, newline, carriage return, tab,
and other C0 controls / DEL as `\xXX`.  (CPython also escapes
non-printable non-ASCII code points; the strings interpolated by this
server are printable, so that case is abstracted as identity.) -/
def pyReprCharEsc (q : Char) (c : Char) : String :=
  if c = '\\' then "\\\\"
  else if c = q then "\\" ++ q.toString
  else if c = '\n' then "\\n"
  else if c = '\x0d' then "\\r"
  else if c = '\t' then "\\t"
  else if c.toNat < 32 || c.toNat = 127 then "\\x" ++ hex2 c.toNat
  else c.toString

/-- CPython `repr` of a string: single-quoted, unless the string contains
a single quote and no double quote, in which case double-quoted. -/
def pyRepr (s : String) : String :=
  let q : Char :=
    if s.toList.contains (Char.ofNat 39) && !s.toList.contains '"' then '"' else Char.ofNat 39
  q.toString ++ String.join (s.toList.map (pyReprCharEsc q)) ++ q.toString

mutual

/-- CPython `str`/`repr` of a deserialized JSON value, as interpolated by
an f-string for a list (`f"... {available}"` calls `str` on the list,
which uses `repr` on the elements). -/
def pyReprJson : Json → String
  | .null => "None"
  | .bool b => if b then "True" else "False"
  | .num n => toString n
  | .str s => pyRepr s
  | .arr xs => "[" ++ pyReprJsonList xs ++ "]"
  | .obj fs => "\x7b" ++ pyReprJsonFields fs ++ "\x7d"

def pyReprJsonList : List Json → String
  | [] => ""
  | [x] => pyReprJson x
  | x :: r => pyReprJson x ++ ", " ++ pyReprJsonList r

def pyReprJsonFields : List (String × Json) → String
  | [] => ""
  | [(k, v)] => pyRepr k ++ ": " ++ pyReprJson v
  | (k, v) :: r => pyRepr k ++ ": " ++ pyReprJson v ++ ", " ++ pyReprJsonFields r

end

example : json_dumps (.obj [("success", .bool true), ("issue", .str "DP-8"), ("status", .str "Done")])
    = "\x7b\"success\": true, \"issue\": \"DP-8\", \"status\": \"Done\"\x7d" := rfl

example : json_dumps_str "a\"b\nc\\d" = "\"a\\\"b\\nc\\\\d\"" := rfl

example : jsonEscapeChar (Char.ofNat 233) = "\\u00e9" := rfl

example : pyReprJson (.arr [.str "Open", .str "In Progress"]) = "['Open', 'In Progress']" := rfl

example : json_dumps_indent2 (.arr [.obj [("key", .str "DP-1"), ("name", .str "x")]])
    = "[\n  \x7b\n    \"key\": \"DP-1\",\n    \"name\": \"x\"\n  \x7d\n]" := rfl

/-- Python subscription `j[k]` with a string key: `KeyError` on a dict
without the key (whose `str` is the `repr` of the key), `TypeError` on
other values. -/
def pySubscript (j : Json) (k : String) : Except PyExc Json :=
  match j with
  | .obj fs =>
    match dictGet fs k with
    | some v => .ok v
    | none => .error (.other (pyRepr k))
  | .str _ => .error (.other "string indices must be integers")
  | .arr _ => .error (.other "list indices must be integers or slices, not str")
  | v => .error (.other ("TypeError: " ++ pyTypeName v ++ " object is not subscriptable"))

/-- Python `j.get(k, deflt)`: only dicts have `.get`; anything else
raises `AttributeError`. -/
def pyDictGet (j : Json) (k : String) (deflt : Json) : Except PyExc Json :=
  match j with
  | .obj fs => .ok ((dictGet fs k).getD deflt)
  | v => .error (.other ("AttributeError: " ++ pyTypeName v ++ " object has no attribute get"))

/-- Python iteration over a deserialized JSON value: a list yields its
elements, a string its one-character strings, a dict its keys (in
insertion order); anything else raises `TypeError`. -/
def pyIter (j : Json) : Except PyExc (List Json)
  := match j with
  | .arr xs => .ok xs
  | .str s => .ok (s.toList.map (fun c => .str c.toString))
  | .obj fs => .ok (fs.map (fun p => .str p.1))
  | v => .error (.other ("TypeError: " ++ pyTypeName v ++ " object is not iterable"))

/-- `handle_error(e)` from `server.py`:

    def handle_error(e: Exception) -> str:
        if isinstance(e, httpx.HTTPStatusError):
            return f"Error: Jira API returned {e.response.status_code}: {e.response.text}"
        if isinstance(e, httpx.TimeoutException):
            return "Error: Request timed out. Please try again."
        return f"Error: {str(e)}"
-/
def handle_error : PyExc → String
  | .httpStatus status text => "Error: Jira API returned " ++ toString status ++ ": " ++ text
  | .timeout => "Error: Request timed out. Please try again."
  | .other msg => "Error: " ++ msg

/-- An HTTP response from the tracker: status code, decoded body text
(`r.text` / truthiness of `r.content`), and the JSON parse of the body
(`r.json()`), `none` when the body is not valid JSON (in particular when
it is empty). -/
structure HttpResp where
  status : Nat
  text : String
  body : Option Json

/-- `r.raise_for_status()` from httpx: raises `HTTPStatusError` for any
non-2xx status, carrying the status code and the response text. -/
def raise_for_status (r : HttpResp) : Except PyExc Unit :=
  if 200 ≤ r.status && r.status ≤ 299 then .ok () else .error (.httpStatus r.status r.text)

/-- The result of `jira_get(path, params)` given the tracker's response
(or a transport-level exception such as a timeout): `raise_for_status`
then `r.json()` (parsing an invalid body raises `json.JSONDecodeError`;
its position details are abstracted). -/
def jira_get_result (resp : Except PyExc HttpResp) : Except PyExc Json :=
  match resp with
  | .error e => .error e
  | .ok r =>
    match raise_for_status r with
    | .error e => .error e
    | .ok _ =>
      match r.body with
      | some j => .ok j
      | none => .error (.other "Expecting value: line 1 column 1 (char 0)")

/-- The result of `jira_post(path, body)` given the tracker's response:
`raise_for_status`, then `r.json() if r.content else {}` — an empty
body yields the empty object instead of a parse attempt. -/
def jira_post_result (resp : Except PyExc HttpResp) : Except PyExc Json :=
  match resp with
  | .error e => .error e
  | .ok r =>
    match raise_for_status r with
    | .error e => .error e
    | .ok _ =>
      if r.text = "" then .ok (.obj [])
      else
        match r.body with
        | some j => .ok j
        | none => .error (.other "Expecting value: line 1 column 1 (char 0)")

/-- A transition as the claims quantify over them: an opaque id and a
human-readable name. -/
structure Transition where
  id : Json
  name : String

/-- The tracker's JSON encoding of a transition. -/
def Transition.toJson (t : Transition) : Json :=
  .obj [("id", t.id), ("name", .str t.name)]

/-- The predicate of the generator inside `jira_close_issue`:
`t["name"].lower() in ["done", "closed", "resolved"]` (subscription may
raise `KeyError`; `.lower()` on a non-string raises `AttributeError`). -/
def closingPred (t : Json) : Except PyExc Bool :=
  match pySubscript t "name" with
  | .error e => .error e
  | .ok (.str s) => .ok (isClosingName s)
  | .ok v => .error (.other ("AttributeError: " ++ pyTypeName v ++ " object has no attribute lower"))

/-- `next((t for t in transitions if t["name"].lower() in [...]), None)`
over the already-iterated transitions: first match wins; the predicate
runs lazily, so an exception on a later element is only raised if no
earlier element matched. -/
def findDoneJ : List Json → Except PyExc (Option Json)
  | [] => .ok none
  | t :: r =>
    match closingPred t with
    | .error e => .error e
    | .ok true => .ok (some t)
    | .ok false => findDoneJ r

/-- `[t["name"] for t in transitions]`: sequential, first exception
wins. -/
def mapSubscriptName : List Json → Except PyExc (List Json)
  | [] => .ok []
  | t :: r =>
    match pySubscript t "name" with
    | .error e => .error e
    | .ok v =>
      match mapSubscriptName r with
      | .error e => .error e
      | .ok vs => .ok (v :: vs)

/-- The no-match result object of `jira_close_issue`:
`{"error": f"No 'Done' transition found. Available: {available}"}`. -/
def closeErrObj (available : List Json) : Json :=
  .obj [("error", .str ("No 'Done' transition found. Available: " ++ pyReprJson (.arr available)))]

/-- The `try`-block of `jira_close_issue`, along with the list of POST
requests (path, JSON body) issued to the tracker:

    data = await jira_get(f"/issue/{params.issue_key}/transitions")
    transitions = data.get("transitions", [])
    done = next((t for t in transitions
                 if t["name"].lower() in ["done", "closed", "resolved"]), None)
    if not done:
        available = [t["name"] for t in transitions]
        return json.dumps({"error": f"No 'Done' transition found. Available: {available}"})
    await jira_post(f"/issue/{params.issue_key}/transitions", {"transition": {"id": done["id"]}})
    return json.dumps({"success": True, "issue": params.issue_key, "status": "Done"})

`getResp` is the tracker's response to the GET, `postResp` its response
to the POST when one is issued.  `if not done` tests Python truthiness
of `done` (`None`, or the matched dict, which is necessarily non-empty
whenever the predicate succeeded on it). -/
def closeAttempt (key : String) (getResp postResp : Except PyExc HttpResp) :
    Except PyExc String × List (String × Json) :=
  match jira_get_result getResp with
  | .error e => (.error e, [])
  | .ok data =>
    match pyDictGet data "transitions" (.arr []) with
    | .error e => (.error e, [])
    | .ok transitions =>
      match pyIter transitions with
      | .error e => (.error e, [])
      | .ok tlist =>
        match findDoneJ tlist with
        | .error e => (.error e, [])
        | .ok done =>
          let noDone : Except PyExc String × List (String × Json) :=
            match mapSubscriptName tlist with
            | .error e => (.error e, [])
            | .ok available => (.ok (json_dumps (closeErrObj available)), [])
          match done with
          | none => noDone
          | some t =>
            if !pyTruthy t then noDone
            else
              match pySubscript t "id" with
              | .error e => (.error e, [])
              | .ok idv =>
                let path := "/issue/" ++ key ++ "/transitions"
                let body : Json := .obj [("transition", .obj [("id", idv)])]
                match jira_post_result postResp with
                | .error e => (.error e, [(path, body)])
                | .ok _ =>
                  (.ok (json_dumps (.obj [("success", .bool true), ("issue", .str key),
                                          ("status", .str "Done")])),
                   [(path, body)])

/-- `jira_close_issue`: the `try`-block result, any exception converted
by `handle_error`; paired with the POST requests issued. -/
def jira_close_issue (key : String) (getResp postResp : Except PyExc HttpResp) :
    String × List (String × Json) :=
  match closeAttempt key getResp postResp with
  | (.ok s, posts) => (s, posts)
  | (.error e, posts) => (handle_error e, posts)

/-- The JQL built by `jira_get_issues`:

    jql = f'project = DP AND text ~ "{params.search}" ORDER BY updated DESC' \
          if params.search else "project = DP ORDER BY updated DESC"

`params.search` is truthy exactly when it is present and non-empty. -/
def buildJql (search : Option String) : String :=
  match search with
  | some s =>
    if s ≠ "" then "project = DP AND text ~ \"" ++ s ++ "\" ORDER BY updated DESC"
    else "project = DP ORDER BY updated DESC"
  | none => "project = DP ORDER BY updated DESC"

/-- The query parameters of the GET issued by `jira_get_issues`:
`{"jql": jql, "maxResults": 25, "fields": "summary,description"}`. -/
def getIssuesParams (search : Option String) : Json :=
  .obj [("jql", .str (buildJql search)), ("maxResults", .num 25),
        ("fields", .str "summary,description")]

/-- One entry of the list comprehension in `jira_get_issues`:

    {"key": i["key"],
     "name": i["fields"].get("summary", ""),
     "description": get_text(i["fields"].get("description"))}
-/
def reshapeIssue (i : Json) : Except PyExc Json :=
  match pySubscript i "key" with
  | .error e => .error e
  | .ok key =>
    match pySubscript i "fields" with
    | .error e => .error e
    | .ok fields =>
      match pyDictGet fields "summary" (.str "") with
      | .error e => .error e
      | .ok nm =>
        match pyDictGet fields "description" .null with
        | .error e => .error e
        | .ok descRaw =>
          match get_text descRaw with
          | .error e => .error e
          | .ok desc => .ok (.obj [("key", key), ("name", nm), ("description", desc)])

/-- The whole list comprehension: sequential, first exception wins. -/
def reshapeIssues : List Json → Except PyExc (List Json)
  | [] => .ok []
  | i :: r =>
    match reshapeIssue i with
    | .error e => .error e
    | .ok v =>
      match reshapeIssues r with
      | .error e => .error e
      | .ok vs => .ok (v :: vs)

/-- The `try`-block of `jira_get_issues` after the GET:

    data = await jira_get("/search/jql", {"jql": jql, "maxResults": 25,
                                          "fields": "summary,description"})
    issues = [ ... for i in data.get("issues", [])]
    return json.dumps(issues, indent=2)
-/
def getIssuesBody (resp : Except PyExc HttpResp) : Except PyExc String :=
  match jira_get_result resp with
  | .error e => .error e
  | .ok data =>
    match pyDictGet data "issues" (.arr []) with
    | .error e => .error e
    | .ok raw =>
      match pyIter raw with
      | .error e => .error e
      | .ok items =>
        match reshapeIssues items with
        | .error e => .error e
        | .ok out => .ok (json_dumps_indent2 (.arr out))

/-- `jira_get_issues`: the GET request issued (path and query
parameters), and the returned string — the `try`-block result with any
exception converted by `handle_error`. -/
def jira_get_issues (search : Option String) (resp : Except PyExc HttpResp) :
    (String × Json) × String :=
  (("/search/jql", getIssuesParams search),
   match getIssuesBody resp with
   | .ok s => s
   | .error e => handle_error e)

/-- The ADF comment body built by `jira_add_comment`:

    body = {"body": {"type": "doc", "version": 1,
            "content": [{"type": "paragraph",
                         "content": [{"type": "text", "text": params.comment}]}]}}
-/
def commentADF (comment : String) : Json :=
  .obj [("body", .obj [
    ("type", .str "doc"),
    ("version", .num 1),
    ("content", .arr [
      .obj [("type", .str "paragraph"),
            ("content", .arr [.obj [("type", .str "text"), ("text", .str comment)]])]])])]

/-- The `try`-block of `jira_add_comment` after building the body:

    result = await jira_post(f"/issue/{params.issue_key}/comment", body)
    return json.dumps({"success": True, "comment_id": result.get("id"),
                       "issue": params.issue_key})
-/
def addCommentBody (key : String) (resp : Except PyExc HttpResp) : Except PyExc String :=
  match jira_post_result resp with
  | .error e => .error e
  | .ok result =>
    match pyDictGet result "id" .null with
    | .error e => .error e
    | .ok cid =>
      .ok (json_dumps (.obj [("success", .bool true), ("comment_id", cid), ("issue", .str key)]))

/-- `jira_add_comment`: the POST request issued (path and JSON body) and
the returned string — the `try`-block result with any exception
converted by `handle_error`. -/
def jira_add_comment (key comment : String) (resp : Except PyExc HttpResp) :
    (String × Json) × String :=
  (("/issue/" ++ key ++ "/comment", commentADF comment),
   match addCommentBody key resp with
   | .ok s => s
   | .error e => handle_error e)

/-! ### Helper lemmas -/

theorem isClosingName_iff (s : String) : isClosingName s = true ↔ pyLower s ∈ closingNames := by
  simp [isClosingName]

theorem isClosingName_false {s : String} (h : pyLower s ∉ closingNames) :
    isClosingName s = false := by
  rcases Bool.eq_false_or_eq_true (isClosingName s) with hb | hb
  · exact absurd ((isClosingName_iff s).mp hb) h
  · exact hb

theorem closingPred_toJson (t : Transition) :
    closingPred t.toJson = .ok (isClosingName t.name) := by
  simp [closingPred, pySubscript, Transition.toJson, dictGet]

theorem findDoneJ_first (pre : List Transition) (t : Transition) (post : List Transition)
    (hpre : ∀ u ∈ pre, isClosingName u.name = false)
    (ht : isClosingName t.name = true) :
    findDoneJ ((pre ++ t :: post).map Transition.toJson) = .ok (some t.toJson) := by
  induction pre with
  | nil => simp [findDoneJ, closingPred_toJson, ht]
  | cons u r ih =>
    have hu := hpre u (List.mem_cons_self u r)
    have hr := ih (fun v hv => hpre v (List.mem_cons_of_mem u hv))
    simpa [findDoneJ, closingPred_toJson, hu] using hr

theorem findDoneJ_none (ts : List Transition)
    (h : ∀ u ∈ ts, isClosingName u.name = false) :
    findDoneJ (ts.map Transition.toJson) = .ok none := by
  induction ts with
  | nil => simp [findDoneJ]
  | cons u r ih =>
    have hu := h u (List.mem_cons_self u r)
    have hr := ih (fun v hv => h v (List.mem_cons_of_mem u hv))
    simp [findDoneJ, closingPred_toJson, hu, hr]

theorem mapSubscriptName_toJson (ts : List Transition) :
    mapSubscriptName (ts.map Transition.toJson) = .ok (ts.map (fun t => Json.str t.name)) := by
  induction ts with
  | nil => simp [mapSubscriptName]
  | cons u r ih => simp [mapSubscriptName, pySubscript, Transition.toJson, dictGet, ih]

theorem handle_error_head (e : PyExc) : ∃ rest, handle_error e = "Error:" ++ rest := by
  cases e with
  | httpStatus status text =>
    refine ⟨" Jira API returned " ++ toString status ++ ": " ++ text, ?_⟩
    simp only [handle_error, ← String.append_assoc]
    rfl
  | timeout => exact ⟨" Request timed out. Please try again.", rfl⟩
  | other msg =>
    refine ⟨" " ++ msg, ?_⟩
    simp only [handle_error, ← String.append_assoc]
    rfl

theorem raise_for_status_err {st : Nat} {txt : String} {bj : Option Json}
    (h : ¬ (200 ≤ st ∧ st ≤ 299)) :
    raise_for_status ⟨st, txt, bj⟩ = .error (.httpStatus st txt) := by
  have : (200 ≤ st && st ≤ 299) = false := by
    rcases Nat.lt_or_ge st 200 with h1 | h1
    · simp; omega
    · simp; omega
  simp [raise_for_status, this]

/-! ### Claims -/

/-- C1: `resolveClosingTransition` (the selection step inside
`jira_close_issue`) selects the first transition, in the order returned
by the tracker, whose name lowercased is exactly one of "done",
"closed", "resolved" (case-insensitive exact match, no substring
matching, no further tie-breaking); in particular on
`[{id:1,name:"In Review"}, {id:2,name:"Resolved"}, {id:3,name:"Done"}]`
it selects the transition with id 2, and a name merely *containing*
"done" does not match. -/
theorem c1_resolve_first_closing :
    (∀ (pre : List Transition) (t : Transition) (post : List Transition),
       (∀ u ∈ pre, pyLower u.name ∉ closingNames) →
       pyLower t.name ∈ closingNames →
       findDoneJ ((pre ++ t :: post).map Transition.toJson) = .ok (some t.toJson))
    ∧ findDoneJ ([⟨.num 1, "In Review"⟩, ⟨.num 2, "Resolved"⟩,
                  ⟨.num 3, "Done"⟩].map Transition.toJson)
        = .ok (some (.obj [("id", .num 2), ("name", .str "Resolved")]))
    ∧ findDoneJ ([⟨.num 1, "Mark as done"⟩].map Transition.toJson) = .ok none := by
  refine ⟨?_, rfl, rfl⟩
  intro pre t post hpre ht
  exact findDoneJ_first pre t post (fun u hu => isClosingName_false (hpre u hu))
    ((isClosingName_iff t.name).mpr ht)

theorem c1_resolve_first_closing_witness :
    findDoneJ (([Transition.mk (Json.num 1) "In Review"] ++ Transition.mk (Json.num 2) "Resolved" ::
                  [Transition.mk (Json.num 3) "Done"]).map Transition.toJson)
      = .ok (some (Transition.toJson (Transition.mk (Json.num 2) "Resolved"))) :=
  c1_resolve_first_closing.1 [Transition.mk (Json.num 1) "In Review"]
    (Transition.mk (Json.num 2) "Resolved")
    [Transition.mk (Json.num 3) "Done"] (by decide) (by decide)

/-- C5: `handle_error` maps each exception kind to its fixed message: a
non-2xx HTTP status error with status `s` and body `b` yields
`"Error: Jira API returned <s>: <b>"`, a timeout yields exactly
`"Error: Request timed out. Please try again."`, and any other
exception yields `"Error: <message>"`. -/
theorem c5_handle_error_messages :
    (∀ (status : Nat) (body : String),
       handle_error (.httpStatus status body)
         = "Error: Jira API returned " ++ toString status ++ ": " ++ body)
    ∧ handle_error .timeout = "Error: Request timed out. Please try again."
    ∧ (∀ msg : String, handle_error (.other msg) = "Error: " ++ msg)
    ∧ handle_error (.httpStatus 404 "Not Found") = "Error: Jira API returned 404: Not Found" :=
  ⟨fun _ _ => rfl, rfl, fun _ => rfl, rfl⟩

/-- C10: `jira_get_issues` with `search = ""` behaves identically to
`jira_get_issues` with `search` absent — the truthiness test treats the
empty string as no search, so the unfiltered all-issues query is
built. -/
theorem c10_empty_search_is_no_search :
    ∀ resp : Except PyExc HttpResp,
      jira_get_issues (some "") resp = jira_get_issues none resp := by
  intro resp
  rfl

/-- C4: for every tool invocation, every exception inside the handler
(including any non-2xx HTTP status from the tracker) is caught at the
handler boundary and converted to a string beginning with `"Error:"`;
the handlers are total functions, so no exception escapes. -/
theorem c4_errors_caught :
    (∀ e : PyExc, ∃ rest, handle_error e = "Error:" ++ rest)
    ∧ (∀ (search : Option String) (resp : Except PyExc HttpResp) (e : PyExc),
        getIssuesBody resp = .error e →
        ∃ rest, (jira_get_issues search resp).2 = "Error:" ++ rest)
    ∧ (∀ (key comment : String) (resp : Except PyExc HttpResp) (e : PyExc),
        addCommentBody key resp = .error e →
        ∃ rest, (jira_add_comment key comment resp).2 = "Error:" ++ rest)
    ∧ (∀ (key : String) (g p : Except PyExc HttpResp) (e : PyExc) (posts : List (String × Json)),
        closeAttempt key g p = (.error e, posts) →
        ∃ rest, (jira_close_issue key g p).1 = "Error:" ++ rest)
    ∧ (∀ (search : Option String) (st : Nat) (txt : String) (bj : Option Json),
        ¬ (200 ≤ st ∧ st ≤ 299) →
        (jira_get_issues search (.ok ⟨st, txt, bj⟩)).2 = handle_error (.httpStatus st txt))
    ∧ (∀ (key comment : String) (st : Nat) (txt : String) (bj : Option Json),
        ¬ (200 ≤ st ∧ st ≤ 299) →
        (jira_add_comment key comment (.ok ⟨st, txt, bj⟩)).2 = handle_error (.httpStatus st txt))
    ∧ (∀ (key : String) (st : Nat) (txt : String) (bj : Option Json)
          (p : Except PyExc HttpResp),
        ¬ (200 ≤ st ∧ st ≤ 299) →
        (jira_close_issue key (.ok ⟨st, txt, bj⟩) p).1 = handle_error (.httpStatus st txt)) := by
  refine ⟨handle_error_head, ?_, ?_, ?_, ?_, ?_, ?_⟩
  · intro search resp e h
    simp only [jira_get_issues, h]
    exact handle_error_head e
  · intro key comment resp e h
    simp only [jira_add_comment, h]
    exact handle_error_head e
  · intro key g p e posts h
    simp only [jira_close_issue, h]
    exact handle_error_head e
  · intro search st txt bj h
    simp only [jira_get_issues, getIssuesBody, jira_get_result, raise_for_status_err h]
  · intro key comment st txt bj h
    simp only [jira_add_comment, addCommentBody, jira_post_result, raise_for_status_err h]
  · intro key st txt bj p h
    simp only [jira_close_issue, closeAttempt, jira_get_result, raise_for_status_err h]

theorem c4_errors_caught_witness :
    (∃ rest, (jira_get_issues none (.error .timeout)).2 = "Error:" ++ rest)
    ∧ (∃ rest, (jira_add_comment "DP-8" "hi" (.error .timeout)).2 = "Error:" ++ rest)
    ∧ (∃ rest, (jira_close_issue "DP-8" (.error .timeout) (.error .timeout)).1
         = "Error:" ++ rest)
    ∧ (jira_get_issues none (.ok (HttpResp.mk 500 "boom" none))).2
        = handle_error (.httpStatus 500 "boom")
    ∧ (jira_add_comment "DP-8" "hi" (.ok (HttpResp.mk 500 "boom" none))).2
        = handle_error (.httpStatus 500 "boom")
    ∧ (jira_close_issue "DP-8" (.ok (HttpResp.mk 500 "boom" none)) (.error .timeout)).1
        = handle_error (.httpStatus 500 "boom") :=
  ⟨c4_errors_caught.2.1 none (.error .timeout) .timeout rfl,
   c4_errors_caught.2.2.1 "DP-8" "hi" (.error .timeout) .timeout rfl,
   c4_errors_caught.2.2.2.1 "DP-8" (.error .timeout) (.error .timeout) .timeout [] rfl,
   c4_errors_caught.2.2.2.2.1 none 500 "boom" none (by omega),
   c4_errors_caught.2.2.2.2.2.1 "DP-8" "hi" 500 "boom" none (by omega),
   c4_errors_caught.2.2.2.2.2.2 "DP-8" 500 "boom" none (.error .timeout) (by omega)⟩

/-- C2: `get_text` equals the spec's reference case-definition
(`extract_spec`, written from the spec's words) on every well-formed
rich-text tree; in particular `extract(null) = ""`,
`extract({type:"text", text:"hi"}) = "hi"`, and
`extract({type:"doc", content:[{type:"paragraph", content:[{type:"text",
text:"a"}, {type:"text", text:"b"}]}]}) = "a b"`. -/
theorem c2_get_text_matches_spec :
    (∀ j : Json, WFb j = true → get_text j = .ok (.str (extract_spec j)))
    ∧ get_text .null = .ok (.str "")
    ∧ get_text (.obj [("type", .str "text"), ("text", .str "hi")]) = .ok (.str "hi")
    ∧ get_text (.obj [("type", .str "doc"),
        ("content", .arr [.obj [("type", .str "paragraph"),
          ("content", .arr [.obj [("type", .str "text"), ("text", .str "a")],
                            .obj [("type", .str "text"), ("text", .str "b")]])]])])
        = .ok (.str "a b") :=
  ⟨fun _ h => get_text_extract_spec h, rfl, rfl, rfl⟩

theorem c2_get_text_matches_spec_witness :
    get_text (.obj [("type", .str "doc"),
        ("content", .arr [.obj [("type", .str "text"), ("text", .str "hello")]])])
      = .ok (.str (extract_spec (.obj [("type", .str "doc"),
          ("content", .arr [.obj [("type", .str "text"), ("text", .str "hello")]])]))) :=
  c2_get_text_matches_spec.1
    (.obj [("type", .str "doc"),
        ("content", .arr [.obj [("type", .str "text"), ("text", .str "hello")]])])
    (by decide)

/-- C9: on every finite, acyclic well-formed rich-text tree, `get_text`
terminates (it is a total function of the tree) and returns a string,
never raising; it is a pure Lean function, so it has no side effects. -/
theorem c9_get_text_total_on_trees :
    ∀ j : Json, WFb j = true → ∃ s : String, get_text j = .ok (.str s) :=
  fun j h => ⟨extract_spec j, get_text_extract_spec h⟩

theorem c9_get_text_total_on_trees_witness :
    ∃ s : String, get_text (.obj [("type", .str "paragraph"),
        ("content", .arr [.obj [("type", .str "text"), ("text", .str "x")], .str "y"])])
      = .ok (.str s) :=
  c9_get_text_total_on_trees
    (.obj [("type", .str "paragraph"),
        ("content", .arr [.obj [("type", .str "text"), ("text", .str "x")], .str "y"])])
    (by decide)

/-- C3: when no transition name case-insensitively equals "done",
"closed" or "resolved", `jira_close_issue` raises no exception and
produces no `"Error:"` string: it returns the JSON object
`{"error": "No 'Done' transition found. Available: [...]"}` carrying the
full list of available transition names in input order, and issues no
POST. -/
theorem c3_close_issue_no_match :
    (∀ (key : String) (ts : List Transition) (st : Nat) (txt : String)
       (postResp : Except PyExc HttpResp),
       (∀ u ∈ ts, pyLower u.name ∉ closingNames) →
       200 ≤ st → st ≤ 299 →
       jira_close_issue key
         (.ok ⟨st, txt, some (.obj [("transitions", .arr (ts.map Transition.toJson))])⟩)
         postResp
       = (json_dumps (.obj [("error", .str ("No 'Done' transition found. Available: "
            ++ pyReprJson (.arr (ts.map (fun t => Json.str t.name)))))]), []))
    ∧ jira_close_issue "DP-8"
        (.ok ⟨200, "t", some (.obj [("transitions",
           .arr ([Transition.mk (Json.num 1) "Open",
                  Transition.mk (Json.num 2) "In Progress"].map Transition.toJson))])⟩)
        (.error .timeout)
      = ("\x7b\"error\": \"No 'Done' transition found. Available: ['Open', 'In Progress']\"\x7d",
         [])
    ∧ ("\x7b\"error\": \"No 'Done' transition found. Available: ['Open', 'In Progress']\"\x7d").toList.take 6
        ≠ "Error:".toList := by
  refine ⟨?_, rfl, by decide⟩
  intro key ts st txt postResp hn h1 h2
  have hrf : (200 ≤ st && st ≤ 299) = true := by simp; omega
  have hfd := findDoneJ_none ts (fun u hu => isClosingName_false (hn u hu))
  have hms := mapSubscriptName_toJson ts
  simp [jira_close_issue, closeAttempt, jira_get_result, raise_for_status, hrf,
        pyDictGet, dictGet, pyIter, hfd, hms, closeErrObj]

theorem c3_close_issue_no_match_witness :
    jira_close_issue "DP-8"
      (.ok (HttpResp.mk 200 "t" (some (.obj [("transitions",
         .arr ([Transition.mk (Json.num 1) "Open",
                Transition.mk (Json.num 2) "In Progress"].map Transition.toJson))]))))
      (.error .timeout)
      = (json_dumps (.obj [("error", .str ("No 'Done' transition found. Available: "
           ++ pyReprJson (.arr ([Transition.mk (Json.num 1) "Open",
                Transition.mk (Json.num 2) "In Progress"].map (fun t => Json.str t.name)))))]),
         []) :=
  c3_close_issue_no_match.1 "DP-8"
    [Transition.mk (Json.num 1) "Open", Transition.mk (Json.num 2) "In Progress"]
    200 "t" (.error .timeout) (by decide) (by omega) (by omega)

/-- C6: when `resolveClosingTransition` finds a matching transition,
`jira_close_issue` POSTs `{"transition": {"id": <chosen id>}}` to the
issue's transitions sub-resource, treats any 2xx response as success
(an empty response body is accepted: `jira_post` yields the empty
object), and returns `{"success": true, "issue": <key>,
"status": "Done"}` — with status the literal `"Done"` regardless of
which of the three names matched. -/
theorem c6_close_issue_applies_transition :
    (∀ (key : String) (pre : List Transition) (t : Transition) (post : List Transition)
       (st1 : Nat) (txt1 : String) (st2 : Nat) (txt2 : String) (bj2 : Option Json),
       (∀ u ∈ pre, pyLower u.name ∉ closingNames) →
       pyLower t.name ∈ closingNames →
       200 ≤ st1 → st1 ≤ 299 → 200 ≤ st2 → st2 ≤ 299 →
       (txt2 = "" ∨ ∃ j, bj2 = some j) →
       jira_close_issue key
         (.ok ⟨st1, txt1, some (.obj [("transitions",
            .arr ((pre ++ t :: post).map Transition.toJson))])⟩)
         (.ok ⟨st2, txt2, bj2⟩)
       = (json_dumps (.obj [("success", .bool true), ("issue", .str key),
                            ("status", .str "Done")]),
          [("/issue/" ++ key ++ "/transitions",
            .obj [("transition", .obj [("id", t.id)])])]))
    ∧ (∀ st : Nat, 200 ≤ st → st ≤ 299 →
         jira_post_result (.ok ⟨st, "", none⟩) = .ok (.obj [])) := by
  constructor
  · intro key pre t post st1 txt1 st2 txt2 bj2 hpre ht h1 h2 h3 h4 hbody
    have hrf1 : (200 ≤ st1 && st1 ≤ 299) = true := by simp; omega
    have hrf2 : (200 ≤ st2 && st2 ≤ 299) = true := by simp; omega
    have hfd := findDoneJ_first pre t post (fun u hu => isClosingName_false (hpre u hu))
      ((isClosingName_iff t.name).mpr ht)
    simp only [List.map_append, List.map_cons] at hfd
    have htr : pyTruthy t.toJson = true := by simp [Transition.toJson, pyTruthy]
    have hid : pySubscript t.toJson "id" = .ok t.id := by
      simp [pySubscript, Transition.toJson, dictGet]
    have hpost : ∃ v, jira_post_result (.ok ⟨st2, txt2, bj2⟩) = .ok v := by
      rcases hbody with h | ⟨j, h⟩
      · subst h
        exact ⟨.obj [], by simp [jira_post_result, raise_for_status, hrf2]⟩
      · subst h
        by_cases he : txt2 = ""
        · exact ⟨.obj [], by simp [jira_post_result, raise_for_status, hrf2, he]⟩
        · exact ⟨j, by simp [jira_post_result, raise_for_status, hrf2, he]⟩
    obtain ⟨v, hpost⟩ := hpost
    simp [jira_close_issue, closeAttempt, jira_get_result, raise_for_status, hrf1,
          pyDictGet, dictGet, pyIter, hfd, htr, hid, hpost]
  · intro st h1 h2
    have hrf : (200 ≤ st && st ≤ 299) = true := by simp; omega
    simp [jira_post_result, raise_for_status, hrf]

theorem c6_close_issue_applies_transition_witness :
    jira_close_issue "DP-8"
      (.ok (HttpResp.mk 200 "x" (some (.obj [("transitions",
         .arr (([Transition.mk (Json.num 1) "Open"]
                ++ Transition.mk (Json.num 5) "Resolved" :: []).map Transition.toJson))]))))
      (.ok (HttpResp.mk 204 "" none))
      = (json_dumps (.obj [("success", .bool true), ("issue", .str "DP-8"),
                           ("status", .str "Done")]),
         [("/issue/" ++ "DP-8" ++ "/transitions",
           .obj [("transition", .obj [("id", Json.num 5)])])]) :=
  c6_close_issue_applies_transition.1 "DP-8" [Transition.mk (Json.num 1) "Open"]
    (Transition.mk (Json.num 5) "Resolved") [] 200 "x" 204 "" none
    (by decide) (by decide) (by omega) (by omega) (by omega) (by omega) (Or.inl rfl)

/-- C7: `jira_get_issues` builds its query as follows — with no (or
empty, see C10) search it selects all issues of project DP ordered by
last-updated descending; with a non-empty search string `s` it
additionally filters on text match for `s`; in both cases the request
caps results at 25 and projects only the summary and description
fields; and the response is reshaped into an ordered sequence of
`{key, name, description}` objects where `description` is flattened via
`get_text`, serialized with `json.dumps(..., indent=2)`. -/
theorem c7_get_issues_query_and_reshape :
    buildJql none = "project = DP ORDER BY updated DESC"
    ∧ (∀ s : String, s ≠ "" →
        buildJql (some s) = "project = DP AND text ~ \"" ++ s ++ "\" ORDER BY updated DESC")
    ∧ (∀ (search : Option String) (resp : Except PyExc HttpResp),
        (jira_get_issues search resp).1
          = ("/search/jql",
             .obj [("jql", .str (buildJql search)), ("maxResults", .num 25),
                   ("fields", .str "summary,description")]))
    ∧ (∀ (i : Json) (key : Json) (ffs : List (String × Json)) (d : Json),
        pySubscript i "key" = .ok key →
        pySubscript i "fields" = .ok (.obj ffs) →
        get_text ((dictGet ffs "description").getD .null) = .ok d →
        reshapeIssue i = .ok (.obj [("key", key),
          ("name", (dictGet ffs "summary").getD (.str "")),
          ("description", d)]))
    ∧ (∀ (search : Option String) (st : Nat) (txt : String) (issuesJ out : List Json),
        200 ≤ st → st ≤ 299 →
        reshapeIssues issuesJ = .ok out →
        (jira_get_issues search (.ok ⟨st, txt, some (.obj [("issues", .arr issuesJ)])⟩)).2
          = json_dumps_indent2 (.arr out)) := by
  refine ⟨rfl, ?_, ?_, ?_, ?_⟩
  · intro s hs
    simp [buildJql, hs]
  · intro search resp
    rfl
  · intro i key ffs d h1 h2 h3
    simp [reshapeIssue, h1, h2, pyDictGet, h3]
  · intro search st txt issuesJ out h1 h2 h3
    have hrf : (200 ≤ st && st ≤ 299) = true := by simp; omega
    simp [jira_get_issues, getIssuesBody, jira_get_result, raise_for_status, hrf,
          pyDictGet, dictGet, pyIter, h3]

theorem c7_get_issues_query_and_reshape_witness :
    buildJql (some "foo") = "project = DP AND text ~ \"" ++ "foo" ++ "\" ORDER BY updated DESC"
    ∧ reshapeIssue (.obj [("key", .str "DP-1"),
        ("fields", .obj [("summary", .str "t"),
          ("description", .obj [("type", .str "text"), ("text", .str "d")])])])
      = .ok (.obj [("key", .str "DP-1"),
          ("name", (dictGet [("summary", Json.str "t"),
            ("description", Json.obj [("type", Json.str "text"),
              ("text", Json.str "d")])] "summary").getD (.str "")),
          ("description", .str "d")])
    ∧ (jira_get_issues (some "foo")
        (.ok (HttpResp.mk 200 "x" (some (.obj [("issues",
           .arr [.obj [("key", .str "DP-1"), ("fields", .obj [])]])]))))).2
      = json_dumps_indent2 (.arr [.obj [("key", .str "DP-1"), ("name", .str ""),
          ("description", .str "")]]) :=
  ⟨c7_get_issues_query_and_reshape.2.1 "foo" (by decide),
   c7_get_issues_query_and_reshape.2.2.2.1
     (.obj [("key", .str "DP-1"),
        ("fields", .obj [("summary", .str "t"),
          ("description", .obj [("type", .str "text"), ("text", .str "d")])])])
     (.str "DP-1")
     [("summary", Json.str "t"),
      ("description", Json.obj [("type", Json.str "text"), ("text", Json.str "d")])]
     (.str "d") rfl rfl rfl,
   c7_get_issues_query_and_reshape.2.2.2.2 (some "foo") 200 "x"
     [.obj [("key", .str "DP-1"), ("fields", .obj [])]]
     [.obj [("key", .str "DP-1"), ("name", .str ""), ("description", .str "")]]
     (by omega) (by omega) rfl⟩

/-- C8: for every comment text (including quotes, newlines and other
special characters), `jira_add_comment` posts to the issue's comments
sub-resource a rich-text document with exactly one paragraph containing
exactly one text run whose text is the input unmodified, and on success
returns `{"success": true, "comment_id": <id assigned by the tracker>,
"issue": <key>}`. -/
theorem c8_add_comment_wraps_text :
    ∀ (key t : String) (st : Nat) (txt : String) (rfs : List (String × Json)) (idv : Json),
      200 ≤ st → st ≤ 299 → txt ≠ "" →
      dictGet rfs "id" = some idv →
      jira_add_comment key t (.ok ⟨st, txt, some (.obj rfs)⟩)
        = (("/issue/" ++ key ++ "/comment",
            .obj [("body", .obj [
              ("type", .str "doc"),
              ("version", .num 1),
              ("content", .arr [
                .obj [("type", .str "paragraph"),
                      ("content", .arr [.obj [("type", .str "text"),
                                              ("text", .str t)]])]])])]),
           json_dumps (.obj [("success", .bool true), ("comment_id", idv),
                             ("issue", .str key)])) := by
  intro key t st txt rfs idv h1 h2 h3 h4
  have hrf : (200 ≤ st && st ≤ 299) = true := by simp; omega
  simp [jira_add_comment, commentADF, addCommentBody, jira_post_result, raise_for_status,
        hrf, h3, pyDictGet, h4]

theorem c8_add_comment_wraps_text_witness :
    jira_add_comment "DP-8" "say \"hi\",\nplease"
      (.ok (HttpResp.mk 201 "\x7b\"id\": \"10001\"\x7d" (some (.obj [("id", .str "10001")]))))
      = (("/issue/" ++ "DP-8" ++ "/comment",
          .obj [("body", .obj [
            ("type", .str "doc"),
            ("version", .num 1),
            ("content", .arr [
              .obj [("type", .str "paragraph"),
                    ("content", .arr [.obj [("type", .str "text"),
                                            ("text", .str "say \"hi\",\nplease")]])]])])]),
         json_dumps (.obj [("success", .bool true), ("comment_id", .str "10001"),
                           ("issue", .str "DP-8")])) :=
  c8_add_comment_wraps_text "DP-8" "say \"hi\",\nplease" 201 "\x7b\"id\": \"10001\"\x7d"
    [("id", .str "10001")] (.str "10001") (by omega) (by omega) (by decide) rfl

end Jira
